import Mathlib

/-
Verification of the CricBase reconciliation, ingestion and event-model code.

The definitions below are a shallow embedding of the Python sources:
  scripts/cricsheet_loader.py        (MissingMatchesLoader)
  scripts/utils.py                   (get_files_to_process)
  scripts/create_schema.py           (deliveries table CHECK constraints,
                                      batting_stats and bowling_stats views)
  scripts/cricsheet_extract_transform.py (DeliveriesExtractor)
Strings are compared by code point, exactly as Python compares str values.
-/

namespace CricBase

/-! ## String comparison, mirroring Python code-point comparison -/

def charListLt : List Char → List Char → Bool
  | _, [] => false
  | [], _ :: _ => true
  | a :: as, b :: bs => if a < b then true else if b < a then false else charListLt as bs

def strLtB (s t : String) : Bool := charListLt s.data t.data

/-! ## Identity Key Builder

Source: cricsheet_loader.py lines 211 to 214 and line 256, both sides build
the key as tuple(sorted([str(team1), str(team2)])).  Python sorted on a two
element list swaps the pair exactly when the second element is less than
the first. -/

def matchTeamsKey (t1 t2 : String) : String × String :=
  if strLtB t2 t1 then (t2, t1) else (t1, t2)

/-! ## Record shapes

IccRec is a scraped summary row (the columns of the scraper output used by
MissingMatchesLoader); DbRow is one row of the match_summary projection
fetched in MissingMatchesLoader with the fetch of existing matches. -/

structure IccRec where
  icc_id : Nat
  start_date : String
  team1 : String
  team2 : String
  venue_name : String
  city : String
  venue_nation : String
  match_result : String
  toss_result : String
deriving DecidableEq, Repr

structure DbRow where
  start_date : String
  team1 : String
  team2 : String
  toss_result : String
  match_result : String
  venue_nation : String
deriving DecidableEq, Repr

def iccKey (a : IccRec) : String × String := matchTeamsKey a.team1 a.team2

def dbKey (b : DbRow) : String × String := matchTeamsKey b.team1 b.team2

/-- Equality on the five join_keys of identify_missing_matches:
start_date, match_teams_key, match_result, toss_result, venue_nation. -/
def agree5 (a : IccRec) (b : DbRow) : Bool :=
  decide (a.start_date = b.start_date) && decide (iccKey a = dbKey b) &&
  decide (a.match_result = b.match_result) && decide (a.toss_result = b.toss_result) &&
  decide (a.venue_nation = b.venue_nation)

/-! ## Duplicate Collapser

Source: MissingMatchesLoader handle_icc_duplicates, which keeps the first
row for each icc_id (pandas drop_duplicates with keep equal to first). -/

def dedupGo : List Nat → List IccRec → List IccRec
  | _, [] => []
  | seen, r :: rs =>
    if r.icc_id ∈ seen then dedupGo seen rs else r :: dedupGo (r.icc_id :: seen) rs

def handle_icc_duplicates (l : List IccRec) : List IccRec := dedupGo [] l

/-! ## Reconciliation Matcher

Source: MissingMatchesLoader identify_missing_matches.  With an empty DB
every scraped row is missing; otherwise a scraped row is missing exactly
when no DB row matches it on all five join keys (left merge, left_only). -/

def identify_missing_matches (icc : List IccRec) (db : List DbRow) : List IccRec :=
  if db.isEmpty then icc
  else icc.filter (fun a => !(db.any (fun b => agree5 a b)))

def exact_matches (icc : List IccRec) (db : List DbRow) : List IccRec :=
  icc.filter (fun a => db.any (fun b => agree5 a b))

/-- DB rows that fail the exact five-field match (right merge, right_only),
the rows fed to the diagnostic tests. -/
def unmatchedDb (icc : List IccRec) (db : List DbRow) : List DbRow :=
  db.filter (fun b => !(icc.any (fun a => agree5 a b)))

/-- Test 1 join keys: start_date, match_teams_key, venue_nation. -/
def resultTestKey (b : DbRow) (a : IccRec) : Bool :=
  decide (b.start_date = a.start_date) && decide (dbKey b = iccKey a) &&
  decide (b.venue_nation = a.venue_nation)

/-- Test 2 join keys: match_teams_key, match_result. -/
def dateTestKey (b : DbRow) (a : IccRec) : Bool :=
  decide (dbKey b = iccKey a) && decide (b.match_result = a.match_result)

/-- Test 3 join keys: start_date, match_teams_key, match_result. -/
def tossTestKey (b : DbRow) (a : IccRec) : Bool :=
  decide (b.start_date = a.start_date) && decide (dbKey b = iccKey a) &&
  decide (b.match_result = a.match_result)

/-- Test 4 join keys: start_date, match_teams_key, match_result, toss_result. -/
def nationTestKey (a : IccRec) (b : DbRow) : Bool :=
  decide (a.start_date = b.start_date) && decide (iccKey a = dbKey b) &&
  decide (a.match_result = b.match_result) && decide (a.toss_result = b.toss_result)

/-- Test 1 of log_diagnostics: every join hit on start_date, match_teams_key
and venue_nation produces a RESULT MISMATCH log line. -/
def resultMismatchDiags (icc : List IccRec) (db : List DbRow) : List (DbRow × IccRec) :=
  (unmatchedDb icc db).flatMap
    (fun b => (icc.filter (fun a => resultTestKey b a)).map (fun a => (b, a)))

/-- Test 2 of log_diagnostics: join hits on match_teams_key and match_result
produce a DATE MISMATCH log line only when the two start dates differ. -/
def dateMismatchDiags (icc : List IccRec) (db : List DbRow) : List (DbRow × IccRec) :=
  ((unmatchedDb icc db).flatMap
    (fun b => (icc.filter (fun a => dateTestKey b a)).map (fun a => (b, a)))).filter
    (fun p => decide (p.1.start_date ≠ p.2.start_date))

/-- Test 3 of log_diagnostics: join hits on start_date, match_teams_key and
match_result produce a TOSS MISMATCH log line only when the toss texts differ. -/
def tossMismatchDiags (icc : List IccRec) (db : List DbRow) : List (DbRow × IccRec) :=
  ((unmatchedDb icc db).flatMap
    (fun b => (icc.filter (fun a => tossTestKey b a)).map (fun a => (b, a)))).filter
    (fun p => decide (p.1.toss_result ≠ p.2.toss_result))

/-- Test 4, check_nation_mismatches: the missing scraped rows are inner
joined with the DB rows on the four partial_check_keys and every hit is
logged as a venue nation mismatch. -/
def nationMismatchDiags (icc : List IccRec) (db : List DbRow) : List (IccRec × DbRow) :=
  (identify_missing_matches icc db).flatMap
    (fun a => (db.filter (fun b => nationTestKey a b)).map (fun b => (a, b)))

/-- Follows the words of the spec, for comparison with resultMismatchDiags:
the result test is said to drop exactly the result text from the five-field
key while matching on all the remaining fields, which would include the
toss text. -/
def specResultMismatchDiags (icc : List IccRec) (db : List DbRow) : List (DbRow × IccRec) :=
  (unmatchedDb icc db).flatMap
    (fun b => (icc.filter (fun a =>
      decide (b.start_date = a.start_date) && decide (dbKey b = iccKey a) &&
      decide (b.toss_result = a.toss_result) &&
      decide (b.venue_nation = a.venue_nation))).map (fun a => (b, a)))

/-- State-level model of update_missing_matches: the backlog table rows it
leaves after a run, given the scraped rows, the DB summary rows, and the
previous contents of the missing_matches table.  An empty scrape returns at
once; otherwise the deduplicated, keyed scrape is compared and the missing
rows are bulk inserted (nothing is inserted when none are missing). -/
def update_missing_matches (icc : List IccRec) (db : List DbRow)
    (backlog : List IccRec) : List IccRec :=
  if icc.isEmpty then backlog
  else
    let missing := identify_missing_matches (handle_icc_duplicates icc) db
    if missing.isEmpty then backlog else backlog ++ missing

/-! ## Incremental Ingestion Gate

Source: utils.py get_files_to_process.  A file is kept exactly when its
name with a trailing .json removed is not among the stored match ids. -/

def removeSuffixJson (s : String) : String :=
  if s.endsWith ".json" then s.dropRight 5 else s

def get_files_to_process (doneIds : List String) (jsonFiles : List (String × String)) :
    List (String × String) :=
  jsonFiles.filter (fun fp => decide (removeSuffixJson fp.1 ∉ doneIds))

/-! ## EventRecord Model: the deliveries table

One row of the deliveries table as the loader inserts it.  Numeric columns
that DeliveriesLoader coerces with fillna(0).astype(int) are plain Int;
columns the pipeline can leave as SQL NULL are Option. -/

structure Delivery where
  batter_id : Option String
  bowler_id : Option String
  non_striker_id : Option String
  runs_batter : Int
  runs_extras : Int
  runs_total : Int
  runs_batter_non_boundary : Option Int
  wickets : Int
  player_out_id : Option String
  how_out : Option String
  fielder1_id : Option String
  fielder2_id : Option String
  fielder3_id : Option String
  wickets2 : Int
  player_out2_id : Option String
  how_out2 : Option String
  extras_byes : Int
  extras_legbyes : Int
  extras_noballs : Int
  extras_penalty : Int
  extras_wides : Int
  review : Int
  ump_decision : Option String
  review_by_id : Option String
  review_ump_id : Option String
  review_batter_id : Option String
  review_result : Option String
  umpires_call : Option Int
  powerplay : Int
  super_over : Int
deriving DecidableEq, Repr

def howOutKinds : List String :=
  ["bowled", "caught", "caught and bowled", "lbw", "stumped", "run out", "hit wicket",
   "obstructing the field", "hit the ball twice", "handled the ball", "timed out",
   "retired hurt", "retired out", "retired not out"]

def fielderEligibleKinds : List String := ["caught", "caught and bowled", "stumped", "run out"]

def noFielderKinds : List String :=
  ["bowled", "lbw", "hit wicket", "obstructing the field", "hit the ball twice",
   "handled the ball", "timed out", "retired hurt", "retired out", "retired not out"]

def howOut2Kinds : List String :=
  ["timed out", "retired hurt", "retired out", "retired not out", "run out"]

/-- OptImp o p holds when the optional value, if present, satisfies p.  This
is the translation of a SQL CHECK whose operand may be NULL: a CHECK fails
only when it evaluates to FALSE, and with a NULL operand it evaluates to
NULL and passes. -/
def OptImp {α : Type} (o : Option α) (p : α → Prop) : Prop := ∀ x, o = some x → p x

instance {α : Type} (o : Option α) (p : α → Prop) [DecidablePred p] :
    Decidable (OptImp o p) :=
  match o with
  | none => isTrue (fun _ hx => Option.noConfusion hx)
  | some a =>
    if h : p a then isTrue (fun _ hx => Option.some.inj hx ▸ h)
    else isFalse (fun hall => h (hall a rfl))

/-- The CHECK constraints of the deliveries table (create_schema.py), each
translated with SQL three-valued semantics: a constraint with a NULL text
operand passes.  In particular the three fielder constraints and the
kind-list constraints are vacuous when how_out is NULL. -/
def deliveryChecks (d : Delivery) : Bool :=
  decide (0 ≤ d.runs_batter) && decide (0 ≤ d.runs_extras) && decide (0 ≤ d.runs_total) &&
  decide (OptImp d.runs_batter_non_boundary
    (fun v => (v = 0 ∨ v = 1) ∧ (d.runs_batter = 4 ∨ d.runs_batter = 6))) &&
  decide (d.wickets = 0 ∨ d.wickets = 1) &&
  decide (OptImp d.how_out (fun k => k ∈ howOutKinds)) &&
  decide (d.wickets2 = 0 ∨ (d.wickets2 = 1 ∧ d.wickets = 1)) &&
  decide (OptImp d.how_out2 (fun k => k ∈ howOut2Kinds)) &&
  decide (d.extras_byes = 0 ∨ (1 ≤ d.extras_byes ∧ 1 ≤ d.runs_extras)) &&
  decide (d.extras_legbyes = 0 ∨ (1 ≤ d.extras_legbyes ∧ 1 ≤ d.runs_extras)) &&
  decide (d.extras_noballs = 0 ∨ (1 ≤ d.extras_noballs ∧ 1 ≤ d.runs_extras)) &&
  decide (d.extras_penalty = 0 ∨ (1 ≤ d.extras_penalty ∧ 1 ≤ d.runs_extras)) &&
  decide (d.extras_wides = 0 ∨ (1 ≤ d.extras_wides ∧ 1 ≤ d.runs_extras)) &&
  decide (d.review = 0 ∨ d.review = 1) &&
  decide (OptImp d.ump_decision (fun u => (u = "out" ∨ u = "not out") ∧ d.review = 1)) &&
  decide (OptImp d.review_result (fun r => r = "out" ∨ r = "not out")) &&
  decide (OptImp d.umpires_call (fun u => (u = 0 ∨ u = 1) ∧ d.review = 1)) &&
  decide (d.powerplay = 0 ∨ d.powerplay = 1) &&
  decide (d.super_over = 0 ∨ d.super_over = 1) &&
  decide ((d.player_out_id = none ∧ d.wickets = 0) ∨
    (d.player_out_id ≠ none ∧ d.wickets = 1)) &&
  decide (OptImp d.how_out (fun k =>
    (d.fielder1_id = none ∧ (d.wickets = 0 ∨ k ∈ noFielderKinds)) ∨
    (d.fielder1_id ≠ none ∧ k ∈ fielderEligibleKinds))) &&
  decide (d.fielder2_id = none ∨
    (d.fielder1_id ≠ none ∧ OptImp d.how_out (fun k => k = "run out"))) &&
  decide (d.fielder3_id = none ∨
    (d.fielder2_id ≠ none ∧ d.fielder1_id ≠ none ∧
     OptImp d.how_out (fun k => k = "run out"))) &&
  decide (d.player_out2_id = none ∨ d.wickets2 = 1) &&
  decide (d.review_batter_id = none ∨ d.batter_id = none ∨
    d.review_batter_id = d.batter_id) &&
  decide (d.extras_wides = 0 ∨ d.extras_noballs = 0) &&
  decide (d.runs_total = d.runs_batter + d.runs_extras) &&
  decide ((d.review = 1 ∧ d.review_by_id ≠ none ∧ d.review_ump_id ≠ none ∧
    d.review_result ≠ none) ∨
   (d.review = 0 ∧ d.review_by_id = none ∧ d.review_ump_id = none ∧
    d.review_result = none)) &&
  decide ((d.ump_decision = none ∧ d.review = 0) ∨ (d.ump_decision ≠ none ∧ d.review = 1)) &&
  decide ((d.wickets2 = 1 ∧ d.player_out2_id ≠ none ∧ d.how_out2 ≠ none) ∨
   (d.wickets2 = 0 ∧ d.player_out2_id = none ∧ d.how_out2 = none))

/-- Model of DeliveriesLoader.load_deliveries followed by the sqlite bulk
insert: a batch is appended to the store when every row passes the table
constraints, and the whole transaction is rolled back (nothing is stored)
when any row violates one. -/
def insert_deliveries (store batch : List Delivery) : Option (List Delivery) :=
  if batch.all deliveryChecks then some (store ++ batch) else none

/-! ## DeliveriesExtractor fielder attribution -/

structure FielderData where
  substitute : Bool
  name : Option String
deriving DecidableEq, Repr

/-- Source: DeliveriesExtractor get_fielder_id. -/
def get_fielder_id (registry : String → Option String) (fd : FielderData) : Option String :=
  if fd.substitute then some "substitute"
  else match fd.name with
  | none => none
  | some n => registry n

/-- The resolution of the first listed fielder of wicket 1, none when the
wicket has no fielders list or the first entry does not resolve. -/
def firstFielder (registry : String → Option String) (fielders : List FielderData) :
    Option String :=
  match fielders with
  | [] => none
  | fd :: _ => get_fielder_id registry fd

/-- Source: DeliveriesExtractor.generate_df wicket 1 handling: fielder1 is
the resolved first fielder, except that a caught and bowled wicket whose
first fielder did not resolve is attributed to the bowler. -/
def extractFielder1 (registry : String → Option String) (kind : Option String)
    (fielders : List FielderData) (bowlerId : Option String) : Option String :=
  let f1 := firstFielder registry fielders
  if kind = some "caught and bowled" ∧ f1 = none then bowlerId else f1

/-! ## Aggregation Engine denominators

Source: create_schema.py batting_stats and bowling_stats views.  Each is
the SUM of a CASE over the join of the player with the deliveries table. -/

/-- ballsFaced in batting_stats: deliveries on strike, excluding wides and
tie-breaker overs (no-balls are NOT excluded). -/
def ballsFaced (p : String) (ds : List Delivery) : Nat :=
  ((ds.filter (fun d => d.batter_id = some p || d.non_striker_id = some p)).map
    (fun d =>
      if d.batter_id = some p ∧ d.extras_wides = 0 ∧ d.super_over = 0 then 1 else 0)).sum

/-- ballsBowledLegal in bowling_stats: deliveries bowled, excluding wides,
no-balls and tie-breaker overs. -/
def ballsBowledLegal (p : String) (ds : List Delivery) : Nat :=
  ((ds.filter (fun d => d.bowler_id = some p)).map
    (fun d =>
      if d.super_over = 0 ∧ d.extras_wides = 0 ∧ d.extras_noballs = 0 then 1 else 0)).sum

/-- Follows the words of the spec, for comparison with ballsFaced: the
balls-faced denominator is said to exclude both wides and no-balls. -/
def specBallsFaced (p : String) (ds : List Delivery) : Nat :=
  ds.countP (fun d =>
    decide (d.batter_id = some p ∧ d.extras_wides = 0 ∧ d.extras_noballs = 0 ∧
      d.super_over = 0))

/-- The legal-ball notion of the spec: neither a wide nor a no-ball. -/
def isLegalBall (d : Delivery) : Bool :=
  decide (d.extras_wides = 0 ∧ d.extras_noballs = 0)

/-! ## Concrete records used by witnesses and counterexamples -/

def a1w : IccRec :=
  { icc_id := 3, start_date := "2024-03-01", team1 := "A", team2 := "B",
    venue_name := "V", city := "C", venue_nation := "X",
    match_result := "A won by 5 wickets",
    toss_result := "B won the toss and chose to field" }

def b1w : DbRow :=
  { start_date := "2024-03-02", team1 := "A", team2 := "B",
    toss_result := "t", match_result := "r", venue_nation := "X" }

def a2c : IccRec :=
  { icc_id := 7, start_date := "2024-06-01", team1 := "Beta", team2 := "Alpha",
    venue_name := "Park", city := "Town", venue_nation := "Nation",
    match_result := "Alpha won by 5 wickets", toss_result := "Beta won the toss" }

def b2c : DbRow :=
  { start_date := "2024-06-01", team1 := "Alpha", team2 := "Beta",
    toss_result := "Alpha won the toss", match_result := "Alpha won by 4 wickets",
    venue_nation := "Nation" }

def r4a : IccRec := { a1w with icc_id := 9 }

def r4b : IccRec := { a1w with icc_id := 9, start_date := "2024-03-02" }

/-- A minimal valid delivery: a dot ball with no wicket, no extras, no review. -/
def dValid : Delivery :=
  { batter_id := some "bat1", bowler_id := some "bwl1", non_striker_id := some "ns1",
    runs_batter := 0, runs_extras := 0, runs_total := 0,
    runs_batter_non_boundary := none, wickets := 0, player_out_id := none,
    how_out := none, fielder1_id := none, fielder2_id := none, fielder3_id := none,
    wickets2 := 0, player_out2_id := none, how_out2 := none, extras_byes := 0,
    extras_legbyes := 0, extras_noballs := 0, extras_penalty := 0, extras_wides := 0,
    review := 0, ump_decision := none, review_by_id := none, review_ump_id := none,
    review_batter_id := none, review_result := none, umpires_call := none,
    powerplay := 0, super_over := 0 }

/-- A delivery with both wicket slots filled: a retired out batter plus a
run out of the other batter. -/
def dSecondWicket : Delivery :=
  { dValid with
    wickets := 1, player_out_id := some "p1", how_out := some "retired out",
    wickets2 := 1, player_out2_id := some "p2", how_out2 := some "run out" }

/-- A delivery with two fielders credited on a run out. -/
def dRunOutFielders : Delivery :=
  { dValid with
    wickets := 1, player_out_id := some "p1", how_out := some "run out",
    fielder1_id := some "f1", fielder2_id := some "f2" }

/-- A delivery with fielder slots filled but a NULL dismissal kind: every
CHECK of the deliveries table passes it under SQL NULL semantics. -/
def dNullKind : Delivery :=
  { dValid with
    wickets := 1, player_out_id := some "p1", how_out := none,
    fielder1_id := some "f1", fielder2_id := some "f2" }

/-- A no-ball faced by bat1: one extra run, no wide. -/
def dNoBall : Delivery :=
  { dValid with
    runs_extras := 1, runs_total := 1, extras_noballs := 1 }

/-! ## Helper lemmas -/

theorem charListLt_asymm : ∀ x y : List Char, charListLt x y = true → charListLt y x = false
  | _, [], h => by simp [charListLt] at h
  | [], _ :: _, _ => by simp [charListLt]
  | a :: as, b :: bs, h => by
    simp only [charListLt] at h ⊢
    by_cases hab : a < b
    · simp [hab, asymm hab, not_lt_of_lt hab]
    · by_cases hba : b < a
      · simp [hab, hba] at h
      · simp only [hab, if_false, hba, if_false] at h ⊢
        simp [hab, hba, charListLt_asymm as bs h]

theorem charListLt_total_eq : ∀ x y : List Char,
    charListLt x y = false → charListLt y x = false → x = y
  | [], [], _, _ => rfl
  | [], _ :: _, h, _ => by simp [charListLt] at h
  | _ :: _, [], _, h => by simp [charListLt] at h
  | a :: as, b :: bs, h1, h2 => by
    simp only [charListLt] at h1 h2
    by_cases hab : a < b
    · simp [hab] at h1
    · by_cases hba : b < a
      · simp [hba, hab] at h2
      · have hcc : a = b := le_antisymm (not_lt.mp hba) (not_lt.mp hab)
        simp only [hab, if_false, hba, if_false] at h1 h2
        rw [hcc, charListLt_total_eq as bs h1 h2]

theorem dedupGo_countP (i : Nat) : ∀ (l : List IccRec) (seen : List Nat),
    (dedupGo seen l).countP (fun r => decide (r.icc_id = i)) =
      if i ∈ seen then 0 else if i ∈ l.map (fun r => r.icc_id) then 1 else 0
  | [], seen => by simp [dedupGo]
  | r :: rs, seen => by
    simp only [dedupGo]
    by_cases hs : r.icc_id ∈ seen
    · rw [if_pos hs, dedupGo_countP i rs seen]
      by_cases hi : i ∈ seen
      · simp [hi]
      · have hir : i ≠ r.icc_id := fun h => hi (h ▸ hs)
        simp [hi, List.mem_cons, hir]
    · rw [if_neg hs, List.countP_cons, dedupGo_countP i rs (r.icc_id :: seen)]
      by_cases hi : i ∈ seen
      · have hir : i ≠ r.icc_id := fun h => hs (h ▸ hi)
        simp [hi, List.mem_cons, hir, Ne.symm hir]
      · by_cases hir : i = r.icc_id
        · simp [hi, hs, hir, List.mem_cons]
        · simp [hi, hs, List.mem_cons, hir, Ne.symm hir]

theorem dedupGo_find (r : IccRec) : ∀ (l : List IccRec) (seen : List Nat),
    r ∈ dedupGo seen l →
    r.icc_id ∉ seen ∧ l.find? (fun s => decide (s.icc_id = r.icc_id)) = some r
  | [], _, h => by simp [dedupGo] at h
  | x :: rs, seen, h => by
    simp only [dedupGo] at h
    by_cases hs : x.icc_id ∈ seen
    · rw [if_pos hs] at h
      obtain ⟨hnot, hfind⟩ := dedupGo_find r rs seen h
      have hne : x.icc_id ≠ r.icc_id := fun he => hnot (he ▸ hs)
      refine ⟨hnot, ?_⟩
      rw [List.find?_cons_of_neg _ (by simp [hne]), hfind]
    · rw [if_neg hs] at h
      rcases List.mem_cons.mp h with rfl | h2
      · exact ⟨hs, by rw [List.find?_cons_of_pos _ (by simp)]⟩
      · obtain ⟨hnot, hfind⟩ := dedupGo_find r rs (x.icc_id :: seen) h2
        have hne : x.icc_id ≠ r.icc_id := fun he => hnot (by simp [← he])
        have hrs : r.icc_id ∉ seen := fun hin => hnot (by simp [hin])
        refine ⟨hrs, ?_⟩
        rw [List.find?_cons_of_neg _ (by simp [hne]), hfind]

theorem mem_identify (icc : List IccRec) (db : List DbRow) (hdb : db ≠ []) (a : IccRec) :
    a ∈ identify_missing_matches icc db ↔ a ∈ icc ∧ ∀ b ∈ db, agree5 a b = false := by
  unfold identify_missing_matches
  rw [if_neg (by simpa [List.isEmpty_iff] using hdb)]
  simp [List.mem_filter, List.any_eq_true]

theorem identify_not_agree (icc : List IccRec) (db : List DbRow) (a : IccRec)
    (ha : a ∈ identify_missing_matches icc db) (b : DbRow) (hb : b ∈ db) :
    agree5 a b = false := by
  have hdb : db ≠ [] := by rintro rfl; cases hb
  exact ((mem_identify icc db hdb a).mp ha).2 b hb

/-! ## Claim theorems -/

/-- Claim C3, counterexample: the team-pair key is NOT case-insensitive and
NOT whitespace-insensitive.  Changing only the case of a team name, or only
its surrounding whitespace, changes the key, because the names are used
verbatim; the two pairs differ already in their components. -/
theorem c3_team_key_counterexample :
    matchTeamsKey "a" "B" ≠ matchTeamsKey "A" "B" ∧
    matchTeamsKey " A" "B" ≠ matchTeamsKey "A" "B" := by decide

/-- Claim C3, amended: the Identity Key Builder team-pair key is
order-independent: for every pair of team names, swapping team1 and team2
yields the same key.  (No case or whitespace normalization is applied.) -/
theorem c3_team_key_order_independent (t1 t2 : String) :
    matchTeamsKey t1 t2 = matchTeamsKey t2 t1 := by
  unfold matchTeamsKey
  by_cases h : strLtB t2 t1
  · have h2 : strLtB t1 t2 = false := charListLt_asymm _ _ h
    simp [h, h2]
  · by_cases h2 : strLtB t1 t2
    · simp [h, h2]
    · have hd : t2.data = t1.data :=
        charListLt_total_eq _ _ (Bool.eq_false_iff.mpr h) (Bool.eq_false_iff.mpr h2)
      have ht : t2 = t1 := by
        cases t2; cases t1; exact congrArg String.mk hd
      simp [h, h2, ht]

/-- Claim C4: after the Duplicate Collapser runs, the output holds exactly
one record per external identifier present in the input, and every
surviving record is the first record with its identifier in input order. -/
theorem c4_duplicate_collapser (l : List IccRec) (i : Nat) (r : IccRec)
    (hr : r ∈ handle_icc_duplicates l) :
    ((handle_icc_duplicates l).countP (fun s => decide (s.icc_id = i)) =
      if i ∈ l.map (fun s => s.icc_id) then 1 else 0) ∧
    l.find? (fun s => decide (s.icc_id = r.icc_id)) = some r := by
  constructor
  · rw [handle_icc_duplicates, dedupGo_countP]
    simp
  · exact (dedupGo_find r l [] hr).2

/-- Claim C4 witness: two scraped rows share icc_id 9; exactly one record
with that identifier survives and it is the first of the two. -/
theorem c4_duplicate_collapser_witness :
    r4a ∈ handle_icc_duplicates [r4a, r4b] ∧
    ((handle_icc_duplicates [r4a, r4b]).countP (fun s => decide (s.icc_id = 9)) =
      if 9 ∈ [r4a, r4b].map (fun s => s.icc_id) then 1 else 0) ∧
    [r4a, r4b].find? (fun s => decide (s.icc_id = r4a.icc_id)) = some r4a :=
  ⟨by decide, c4_duplicate_collapser [r4a, r4b] 9 r4a (by decide)⟩

/-- Claim C5: the Incremental Ingestion Gate keeps exactly the files whose
name with the .json suffix removed is not among the stored match ids, and a
second run, after every returned file id has been stored, returns nothing. -/
theorem c5_ingestion_gate (done : List String) (files : List (String × String))
    (fp : String × String) :
    (fp ∈ get_files_to_process done files ↔
      fp ∈ files ∧ removeSuffixJson fp.1 ∉ done) ∧
    get_files_to_process
      (done ++ (get_files_to_process done files).map (fun q => removeSuffixJson q.1))
      files = [] := by
  constructor
  · simp [get_files_to_process, List.mem_filter]
  · rw [get_files_to_process, List.filter_eq_nil_iff]
    intro q hq
    simp only [decide_eq_true_eq, Decidable.not_not, List.mem_append]
    by_cases h : removeSuffixJson q.1 ∈ done
    · exact Or.inl h
    · refine Or.inr (List.mem_map.mpr ⟨q, ?_, rfl⟩)
      rw [get_files_to_process, List.mem_filter]
      exact ⟨hq, by simpa using h⟩

/-- Claim C1: with a non-empty canonical summary set, a deduplicated
scraped record is classified missing if and only if no canonical row agrees
with it on all five key fields; a record with a five-field match lands in
the exact partition and not among the missing; and the run appends exactly
the missing records to the backlog table. -/
theorem c1_missing_backlog (icc : List IccRec) (db : List DbRow)
    (backlog : List IccRec) (a : IccRec) (hdb : db ≠ [])
    (ha : a ∈ handle_icc_duplicates icc) :
    (a ∈ identify_missing_matches (handle_icc_duplicates icc) db ↔
      ∀ b ∈ db, agree5 a b = false) ∧
    ((∃ b ∈ db, agree5 a b = true) →
      a ∈ exact_matches (handle_icc_duplicates icc) db ∧
      a ∉ identify_missing_matches (handle_icc_duplicates icc) db) ∧
    update_missing_matches icc db backlog =
      backlog ++ identify_missing_matches (handle_icc_duplicates icc) db := by
  refine ⟨?_, ?_, ?_⟩
  · rw [mem_identify _ _ hdb]
    simp [ha]
  · rintro ⟨b, hb, hab⟩
    constructor
    · rw [exact_matches, List.mem_filter]
      exact ⟨ha, List.any_eq_true.mpr ⟨b, hb, hab⟩⟩
    · rw [mem_identify _ _ hdb]
      rintro ⟨-, hall⟩
      simp [hall b hb] at hab
  · have hicc : icc ≠ [] := by
      rintro rfl
      simp [handle_icc_duplicates, dedupGo] at ha
    simp only [update_missing_matches]
    rw [if_neg (by simpa [List.isEmpty_iff] using hicc)]
    by_cases hm : (identify_missing_matches (handle_icc_duplicates icc) db).isEmpty
    · rw [if_pos hm, List.isEmpty_iff.mp hm, List.append_nil]
    · rw [if_neg hm]

/-- Claim C1 witness: a single scraped record against a single disagreeing
canonical row; the record is identified as missing and the run appends it
to the backlog. -/
theorem c1_missing_backlog_witness :
    (a1w ∈ identify_missing_matches (handle_icc_duplicates [a1w]) [b1w] ↔
      ∀ b ∈ [b1w], agree5 a1w b = false) ∧
    ((∃ b ∈ [b1w], agree5 a1w b = true) →
      a1w ∈ exact_matches (handle_icc_duplicates [a1w]) [b1w] ∧
      a1w ∉ identify_missing_matches (handle_icc_duplicates [a1w]) [b1w]) ∧
    update_missing_matches [a1w] [b1w] [] =
      [] ++ identify_missing_matches (handle_icc_duplicates [a1w]) [b1w] :=
  c1_missing_backlog [a1w] [b1w] [] a1w (by simp) (by decide)

/-- Claim C2, counterexample: the spec says the result-mismatch join drops
only the result text and matches on all remaining fields (so also on the
toss text).  On a pair that agrees on date, team key and venue nation but
differs in result AND toss, the code emits a result-mismatch diagnostic
while the join described in the spec produces no hit. -/
theorem c2_diagnostics_counterexample :
    resultMismatchDiags [a2c] [b2c] = [(b2c, a2c)] ∧
    specResultMismatchDiags [a2c] [b2c] = [] := by decide

/-- Claim C2, amended: the diagnostics of the Reconciliation Matcher fire
exactly as follows.  For canonical rows with no five-field match: a result
mismatch is emitted for every scraped row agreeing on date, team key and
venue nation; a date mismatch for every scraped row agreeing on team key
and result whose date differs; a toss mismatch for every scraped row
agreeing on date, team key and result whose toss text differs.  The venue
nation test pairs each missing scraped row with the canonical rows agreeing
on date, team key, result and toss, and every such pair indeed differs in
venue nation. -/
theorem c2_diagnostics_joins (icc : List IccRec) (db : List DbRow)
    (b : DbRow) (a : IccRec) :
    ((b, a) ∈ resultMismatchDiags icc db ↔
      b ∈ unmatchedDb icc db ∧ a ∈ icc ∧ resultTestKey b a = true) ∧
    ((b, a) ∈ dateMismatchDiags icc db ↔
      b ∈ unmatchedDb icc db ∧ a ∈ icc ∧ dateTestKey b a = true ∧
      b.start_date ≠ a.start_date) ∧
    ((b, a) ∈ tossMismatchDiags icc db ↔
      b ∈ unmatchedDb icc db ∧ a ∈ icc ∧ tossTestKey b a = true ∧
      b.toss_result ≠ a.toss_result) ∧
    ((a, b) ∈ nationMismatchDiags icc db ↔
      a ∈ identify_missing_matches icc db ∧ b ∈ db ∧ nationTestKey a b = true ∧
      a.venue_nation ≠ b.venue_nation) := by
  refine ⟨?_, ?_, ?_, ?_⟩
  · simp only [resultMismatchDiags, List.mem_flatMap, List.mem_map, List.mem_filter,
      Prod.mk.injEq]
    constructor
    · rintro ⟨b0, hb0, a0, ⟨ha0, hk⟩, rfl, rfl⟩
      exact ⟨hb0, ha0, hk⟩
    · rintro ⟨hb, ha, hk⟩
      exact ⟨b, hb, a, ⟨ha, hk⟩, rfl, rfl⟩
  · simp only [dateMismatchDiags, List.mem_filter, List.mem_flatMap, List.mem_map,
      Prod.mk.injEq, decide_eq_true_eq]
    constructor
    · rintro ⟨⟨b0, hb0, a0, ⟨ha0, hk⟩, rfl, rfl⟩, hne⟩
      exact ⟨hb0, ha0, hk, hne⟩
    · rintro ⟨hb, ha, hk, hne⟩
      exact ⟨⟨b, hb, a, ⟨ha, hk⟩, rfl, rfl⟩, hne⟩
  · simp only [tossMismatchDiags, List.mem_filter, List.mem_flatMap, List.mem_map,
      Prod.mk.injEq, decide_eq_true_eq]
    constructor
    · rintro ⟨⟨b0, hb0, a0, ⟨ha0, hk⟩, rfl, rfl⟩, hne⟩
      exact ⟨hb0, ha0, hk, hne⟩
    · rintro ⟨hb, ha, hk, hne⟩
      exact ⟨⟨b, hb, a, ⟨ha, hk⟩, rfl, rfl⟩, hne⟩
  · simp only [nationMismatchDiags, List.mem_flatMap, List.mem_map, List.mem_filter,
      Prod.mk.injEq]
    constructor
    · rintro ⟨a0, ha0, b0, ⟨hb0, hk⟩, h1, h2⟩
      rw [h1] at ha0 hk
      rw [h2] at hb0 hk
      refine ⟨ha0, hb0, hk, fun hv => ?_⟩
      have h5 : agree5 a b = false := identify_not_agree icc db a ha0 b hb0
      have he : agree5 a b =
          (nationTestKey a b && decide (a.venue_nation = b.venue_nation)) := rfl
      rw [he, hk] at h5
      simp [hv] at h5
    · rintro ⟨ha0, hb0, hk, -⟩
      exact ⟨a, ha0, b, ⟨hb0, hk⟩, rfl, rfl⟩

/-- Claim C9: the Reconciliation Matcher error-free shapes: an empty scrape
set makes the whole missing-matches update a no-op that leaves the backlog
unchanged, and an empty canonical summary set classifies every scraped
record as missing. -/
theorem c9_empty_shapes :
    (∀ (db : List DbRow) (backlog : List IccRec),
      update_missing_matches [] db backlog = backlog) ∧
    (∀ icc : List IccRec, identify_missing_matches icc [] = icc) :=
  ⟨fun _ _ => rfl, fun _ => rfl⟩

theorem checks_core (d : Delivery) (h : deliveryChecks d = true) :
    d.runs_total = d.runs_batter + d.runs_extras ∧
    (d.wickets2 = 0 ∨ (d.wickets2 = 1 ∧ d.wickets = 1)) ∧
    OptImp d.how_out (fun k =>
      (d.fielder1_id = none ∧ (d.wickets = 0 ∨ k ∈ noFielderKinds)) ∨
      (d.fielder1_id ≠ none ∧ k ∈ fielderEligibleKinds)) ∧
    (d.fielder2_id = none ∨
      (d.fielder1_id ≠ none ∧ OptImp d.how_out (fun k => k = "run out"))) ∧
    (d.fielder3_id = none ∨
      (d.fielder2_id ≠ none ∧ d.fielder1_id ≠ none ∧
       OptImp d.how_out (fun k => k = "run out"))) := by
  simp only [deliveryChecks, Bool.and_eq_true, decide_eq_true_eq] at h
  obtain ⟨h, h30⟩ := h
  obtain ⟨h, h29⟩ := h
  obtain ⟨h, h28⟩ := h
  obtain ⟨h, h27⟩ := h
  obtain ⟨h, h26⟩ := h
  obtain ⟨h, h25⟩ := h
  obtain ⟨h, h24⟩ := h
  obtain ⟨h, h23⟩ := h
  obtain ⟨h, h22⟩ := h
  obtain ⟨h, h21⟩ := h
  obtain ⟨h, h20⟩ := h
  obtain ⟨h, h19⟩ := h
  obtain ⟨h, h18⟩ := h
  obtain ⟨h, h17⟩ := h
  obtain ⟨h, h16⟩ := h
  obtain ⟨h, h15⟩ := h
  obtain ⟨h, h14⟩ := h
  obtain ⟨h, h13⟩ := h
  obtain ⟨h, h12⟩ := h
  obtain ⟨h, h11⟩ := h
  obtain ⟨h, h10⟩ := h
  obtain ⟨h, h9⟩ := h
  obtain ⟨h, h8⟩ := h
  obtain ⟨h, h7⟩ := h
  exact ⟨h27, h7, h21, h22, h23⟩

/-- Claim C10: a stored delivery can carry a second wicket only together
with a first one: every delivery passing the table constraints with
wickets2 equal to 1 also has wickets equal to 1. -/
theorem c10_second_wicket (d : Delivery) (h : deliveryChecks d = true)
    (h2 : d.wickets2 = 1) : d.wickets = 1 := by
  rcases (checks_core d h).2.1 with h0 | ⟨-, hw⟩
  · rw [h0] at h2
    exact absurd h2 (by norm_num)
  · exact hw

/-- Claim C10 witness: a concrete delivery with both wicket slots set
passes the table constraints and indeed records the first wicket. -/
theorem c10_second_wicket_witness :
    deliveryChecks dSecondWicket = true ∧ dSecondWicket.wickets2 = 1 ∧
    dSecondWicket.wickets = 1 :=
  ⟨by decide, by decide, c10_second_wicket dSecondWicket (by decide) (by decide)⟩

/-- Claim C6: every delivery in a store produced by accepted inserts
satisfies the runs identity, and a batch holding a violating delivery is
rejected as a whole (the transaction rolls back and nothing is stored). -/
theorem c6_runs_invariant (store batch : List Delivery)
    (hstore : ∀ d ∈ store, deliveryChecks d = true) :
    (∀ out, insert_deliveries store batch = some out →
      ∀ d ∈ out, d.runs_total = d.runs_batter + d.runs_extras) ∧
    (∀ d ∈ batch, d.runs_total ≠ d.runs_batter + d.runs_extras →
      insert_deliveries store batch = none) := by
  constructor
  · intro out hout d hd
    simp only [insert_deliveries] at hout
    by_cases hall : batch.all deliveryChecks
    · rw [if_pos hall] at hout
      obtain rfl : store ++ batch = out := Option.some.inj hout
      rcases List.mem_append.mp hd with hds | hdb
      · exact (checks_core d (hstore d hds)).1
      · exact (checks_core d (List.all_eq_true.mp hall d hdb)).1
    · rw [if_neg hall] at hout
      cases hout
  · intro d hd hbad
    simp only [insert_deliveries]
    rw [if_neg]
    intro hall
    exact hbad (checks_core d (List.all_eq_true.mp hall d hd)).1

/-- Claim C6 witness: inserting one valid delivery into an empty store. -/
theorem c6_runs_invariant_witness :
    (∀ out, insert_deliveries [] [dValid] = some out →
      ∀ d ∈ out, d.runs_total = d.runs_batter + d.runs_extras) ∧
    (∀ d ∈ [dValid], d.runs_total ≠ d.runs_batter + d.runs_extras →
      insert_deliveries [] [dValid] = none) :=
  c6_runs_invariant [] [dValid] (by simp)

/-- Claim C7, counterexample: the table constraints accept a delivery whose
second fielder slot is filled while no dismissal kind is recorded at all
(SQL NULL passes a CHECK), so a slot-2 fielder does not force the dismissal
kind to be run out, nor a slot-1 fielder a kind from the eligible set. -/
theorem c7_fielder_kind_counterexample :
    deliveryChecks dNullKind = true ∧ dNullKind.fielder2_id ≠ none ∧
    dNullKind.fielder1_id ≠ none ∧ dNullKind.how_out = none := by decide

/-- Claim C7, amended: for every delivery passing the table constraints, a
fielder at slot 2 or 3 requires all lower slots filled and the dismissal
kind, when one is recorded, to be run out; a fielder at slot 1 together
with a recorded dismissal kind requires that kind to be caught, caught and
bowled, stumped or run out; and the extractor attributes the bowler as
fielder 1 on a caught and bowled wicket whose first fielder does not
resolve. -/
theorem c7_fielder_attribution (d : Delivery) (registry : String → Option String)
    (fielders : List FielderData) (bowlerId : Option String)
    (h : deliveryChecks d = true)
    (hf : firstFielder registry fielders = none) :
    (d.fielder2_id ≠ none → d.fielder1_id ≠ none ∧
      (d.how_out = none ∨ d.how_out = some "run out")) ∧
    (d.fielder3_id ≠ none → d.fielder2_id ≠ none ∧ d.fielder1_id ≠ none ∧
      (d.how_out = none ∨ d.how_out = some "run out")) ∧
    (∀ k, d.how_out = some k → d.fielder1_id ≠ none → k ∈ fielderEligibleKinds) ∧
    extractFielder1 registry (some "caught and bowled") fielders bowlerId = bowlerId := by
  obtain ⟨-, -, h21, h22, h23⟩ := checks_core d h
  refine ⟨?_, ?_, ?_, ?_⟩
  · intro hf2
    rcases h22 with h0 | ⟨hf1, hro⟩
    · exact absurd h0 hf2
    · refine ⟨hf1, ?_⟩
      cases hho : d.how_out with
      | none => exact Or.inl rfl
      | some k => exact Or.inr (by rw [hro k hho])
  · intro hf3
    rcases h23 with h0 | ⟨hf2, hf1, hro⟩
    · exact absurd h0 hf3
    · refine ⟨hf2, hf1, ?_⟩
      cases hho : d.how_out with
      | none => exact Or.inl rfl
      | some k => exact Or.inr (by rw [hro k hho])
  · intro k hk hf1
    rcases h21 k hk with ⟨h0, -⟩ | ⟨-, hmem⟩
    · exact absurd h0 hf1
    · exact hmem
  · simp [extractFielder1, hf]

/-- Claim C7 witness: a run out with two fielders passes the constraints,
and a caught and bowled wicket with an empty fielders list is attributed to
the bowler. -/
theorem c7_fielder_attribution_witness :
    deliveryChecks dRunOutFielders = true ∧
    ((dRunOutFielders.fielder2_id ≠ none → dRunOutFielders.fielder1_id ≠ none ∧
      (dRunOutFielders.how_out = none ∨ dRunOutFielders.how_out = some "run out")) ∧
    (dRunOutFielders.fielder3_id ≠ none → dRunOutFielders.fielder2_id ≠ none ∧
      dRunOutFielders.fielder1_id ≠ none ∧
      (dRunOutFielders.how_out = none ∨ dRunOutFielders.how_out = some "run out")) ∧
    (∀ k, dRunOutFielders.how_out = some k → dRunOutFielders.fielder1_id ≠ none →
      k ∈ fielderEligibleKinds) ∧
    extractFielder1 (fun _ => none) (some "caught and bowled") [] (some "bwl9") =
      some "bwl9") :=
  ⟨by decide,
   c7_fielder_attribution dRunOutFielders (fun _ => none) [] (some "bwl9")
     (by decide) rfl⟩

theorem sum_one_filter {α : Type} (l : List α) (fb : α → Bool) (r : α → Prop)
    [DecidablePred r] :
    ((l.filter fb).map (fun x => if r x then (1 : Nat) else 0)).sum =
      l.countP (fun x => fb x && decide (r x)) := by
  induction l with
  | nil => rfl
  | cons x xs ih =>
    rw [List.filter_cons, List.countP_cons]
    by_cases hb : fb x = true
    · rw [if_pos hb, List.map_cons, List.sum_cons, ih]
      by_cases hr : r x
      · simp [hb, hr, Nat.add_comm]
      · simp [hb, hr]
    · rw [if_neg hb, ih]
      simp [hb]

/-- Claim C8, counterexample: a delivery with a no-ball and no wide passes
the table constraints, and the batting balls-faced count of batting_stats
counts it, while the balls-faced count described by the spec (excluding
both wides and no-balls) does not. -/
theorem c8_noball_counterexample :
    deliveryChecks dNoBall = true ∧ dNoBall.extras_noballs = 1 ∧
    dNoBall.extras_wides = 0 ∧ ballsFaced "bat1" [dNoBall] = 1 ∧
    specBallsFaced "bat1" [dNoBall] = 0 := by decide

/-- Claim C8, amended: the bowling legal-balls count (the economy
denominator) counts a delivery exactly when it is by the bowler, outside a
tie-breaker over, and has neither a wide nor a no-ball; the batting
balls-faced count (the strike-rate denominator) counts a delivery exactly
when it is faced by the batter, outside a tie-breaker over, and has no
wide: no-balls are NOT excluded from balls faced. -/
theorem c8_legal_denominators (p : String) (ds : List Delivery) :
    ballsBowledLegal p ds = ds.countP (fun d =>
      decide (d.bowler_id = some p) && decide (d.super_over = 0) && isLegalBall d) ∧
    ballsFaced p ds = ds.countP (fun d =>
      decide (d.batter_id = some p ∧ d.extras_wides = 0 ∧ d.super_over = 0)) := by
  constructor
  · rw [ballsBowledLegal, sum_one_filter]
    refine List.countP_congr (fun d _ => ?_)
    simp only [isLegalBall, Bool.and_eq_true, decide_eq_true_eq]
    tauto
  · rw [ballsFaced, sum_one_filter]
    refine List.countP_congr (fun d _ => ?_)
    simp only [Bool.and_eq_true, Bool.or_eq_true, decide_eq_true_eq]
    tauto

end CricBase
